import Mathlib

/-!
Shallow embedding of `DocxExportStrategy` (the repository's HTML-to-DOCX
export pipeline) and proofs of the frozen claims about it.

The DOM is modelled as a tree of element/text nodes; the `docx` library's
`Paragraph` / `TextRun` / `Table` constructor calls are modelled as plain
records carrying exactly the options the source passes; external
collaborators (DOMParser, Packer.toBlob, saveAs, the tiptap Editor, and the
base-class helpers generateFilename / createMetadata) are parameters or
abstract records, and their possible failures are modelled as `Except`
values so that every throw site of the source is represented.
-/

/-! ## DOM model -/

/-- A parsed HTML node: either a text node or an element with a tag and an
ordered list of child nodes (mirrors the DOM tree DOMParser produces). -/
inductive HtmlNode where
  | text (s : String)
  | elem (tag : String) (children : List HtmlNode)
deriving Repr

mutual

/-- DOM `textContent`: the concatenation of all descendant text, ignoring
structure ("flattened text content" in the spec's glossary). -/
def textContent : HtmlNode → String
  | .text s => s
  | .elem _ cs => textContentList cs

/-- textContent of a list of sibling nodes, concatenated in order. -/
def textContentList : List HtmlNode → String
  | [] => ""
  | n :: ns => textContent n ++ textContentList ns

end

/-- JavaScript `toLowerCase()` on the character list of a string (spelled
out so that the kernel can evaluate it on concrete strings). -/
def strLower (s : String) : String := ⟨s.data.map Char.toLower⟩

/-- JavaScript `trim()`: leading and trailing whitespace removed (spelled
out so that the kernel can evaluate it on concrete strings). -/
def strTrim (s : String) : String :=
  ⟨(((s.data.dropWhile Char.isWhitespace).reverse).dropWhile Char.isWhitespace).reverse⟩

/-- The element's tag name ("" for a text node, which has none). -/
def tagOf : HtmlNode → String
  | .text _ => ""
  | .elem tag _ => tag

/-- `element.tagName.toLowerCase()` of the source. -/
def tagLower (n : HtmlNode) : String := strLower (tagOf n)

/-- Whether a node is an element node (DOM nodeType ELEMENT_NODE). -/
def isElem : HtmlNode → Bool
  | .text _ => false
  | .elem _ _ => true

/-- DOM `childNodes`: every child, text nodes included. -/
def childNodes : HtmlNode → List HtmlNode
  | .text _ => []
  | .elem _ cs => cs

/-- DOM `children`: the element children only (text nodes dropped). -/
def childElements (n : HtmlNode) : List HtmlNode := (childNodes n).filter isElem

/-! ## docx output model -/

/-- docx `HeadingLevel` values the source uses. -/
inductive HeadingLevel where
  | TITLE
  | HEADING_1
  | HEADING_2
  | HEADING_3
  | HEADING_4
  | HEADING_5
  | HEADING_6
deriving Repr, DecidableEq

/-- docx `AlignmentType` values the source uses. -/
inductive AlignmentType where
  | CENTER
deriving Repr, DecidableEq

/-- One side of a paragraph border, as the source passes it. -/
structure BorderSide where
  color : String
  size : Nat
  style : String
deriving Repr, DecidableEq

/-- A docx `TextRun`, with exactly the options the source ever passes.
Absent options keep their default (false / none), as in the library. -/
structure TextRun where
  text : String
  bold : Bool := false
  italics : Bool := false
  underline : Bool := false
  strike : Bool := false
  font : Option String := none
  size : Option Nat := none
  color : Option String := none
  shadingFill : Option String := none
deriving Repr, DecidableEq

/-- A docx `Paragraph`, with exactly the options the source ever passes. -/
structure ParagraphBlock where
  children : List TextRun
  heading : Option HeadingLevel := none
  alignment : Option AlignmentType := none
  spacingBefore : Option Nat := none
  spacingAfter : Option Nat := none
  indentLeft : Option Nat := none
  borderLeft : Option BorderSide := none
  borderBottom : Option BorderSide := none
  shadingFill : Option String := none
deriving Repr, DecidableEq

/-- A docx `TableCell`: its paragraphs plus the shading the source sets for
header cells. -/
structure TableCellBlock where
  children : List ParagraphBlock
  shadingFill : Option String := none
deriving Repr, DecidableEq

/-- A top-level docx element the converter emits: a paragraph or a table
(the table carries the fixed width options the source passes). -/
inductive DocxBlock where
  | para (p : ParagraphBlock)
  | table (rows : List (List TableCellBlock)) (widthSize : Nat) (widthType : String)
deriving Repr, DecidableEq

/-! ## Inline formatter (`processInlineElements`) -/

/-- The styled run `processInlineElements` builds for one inline element,
dispatching on the lowercased tag (default: a plain run). -/
def inlineRun (tag : String) (text : String) : TextRun :=
  match strLower tag with
  | "strong" | "b" => { text, bold := true }
  | "em" | "i" => { text, italics := true }
  | "u" => { text, underline := true }
  | "s" | "strike" => { text, strike := true }
  | "code" => { text, font := some "Courier New", size := some 18, shadingFill := some "f4f4f4" }
  | "a" => { text, color := some "0066cc", underline := true }
  | _ => { text }

/-- One child node's contribution to the run list: a non-blank text node
yields a plain run with its original text; an element with non-blank
flattened text yields one styled run; blank nodes yield nothing. -/
def inlineRunOfNode : HtmlNode → Option TextRun
  | .text s => if strTrim s == "" then none else some { text := s }
  | .elem tag cs =>
      let text := textContentList cs
      if strTrim text == "" then none else some (inlineRun tag text)

/-- `processInlineElements`: walk the element's direct child nodes in order
and collect the runs they contribute. -/
def processInlineElements (element : HtmlNode) : List TextRun :=
  (childNodes element).filterMap inlineRunOfNode

/-! ## Block formatter -/

/-- The font-size table of `createHeading`'s switch (half-points). -/
def headingFontSize : HeadingLevel → Nat
  | .HEADING_1 => 32
  | .HEADING_2 => 28
  | .HEADING_3 => 26
  | .HEADING_4 => 24
  | .HEADING_5 => 22
  | .HEADING_6 => 20
  | .TITLE => 36

/-- `createHeading`: one bold, colored run at the level's font size, with
heading level set and the level-dependent spacing. -/
def createHeading (text : String) (level : HeadingLevel) : ParagraphBlock :=
  { children := [{ text, bold := true, size := some (headingFontSize level), color := some "2c3e50" }],
    heading := some level,
    spacingBefore := some (if level = HeadingLevel.HEADING_1 then 400 else 300),
    spacingAfter := some 200 }

/-- `createParagraph`: runs from the inline formatter, falling back to a
single plain run with the element's flattened text when none were emitted. -/
def createParagraph (element : HtmlNode) : ParagraphBlock :=
  let textRuns := processInlineElements element
  let textRuns := if textRuns.length == 0 then [{ text := textContent element }] else textRuns
  { children := textRuns, spacingAfter := some 200 }

/-- The list-item paragraph `createList` pushes: marker and item text joined
with a space into a single run, fixed spacing and indent. -/
def listItemBlock (marker : String) (content : String) : ParagraphBlock :=
  { children := [{ text := marker ++ " " ++ content }],
    spacingAfter := some 100,
    indentLeft := some 720 }

/-- The `forEach((li, index) => ...)` loop of `createList`: `index` counts
every element child, but only `li` children emit a block. -/
def createListAux (isOrdered : Bool) : Nat → List HtmlNode → List ParagraphBlock
  | _, [] => []
  | index, li :: rest =>
      (if tagLower li == "li" then
        [listItemBlock (if isOrdered then toString (index + 1) ++ "." else "•") (textContent li)]
      else []) ++ createListAux isOrdered (index + 1) rest

/-- `createList`: ordered iff the list element's tag is `ol`; walks the
element children with their indices. -/
def createList (listElement : HtmlNode) : List ParagraphBlock :=
  createListAux (tagLower listElement == "ol") 0 (childElements listElement)

/-- `createBlockquote`: one italic muted run, indent and left border. -/
def createBlockquote (text : String) : ParagraphBlock :=
  { children := [{ text, italics := true, color := some "666666" }],
    spacingBefore := some 200,
    spacingAfter := some 200,
    indentLeft := some 720,
    borderLeft := some { color := "007bff", size := 6, style := "single" } }

/-- `createCodeBlock`: one monospace run, shaded paragraph. -/
def createCodeBlock (text : String) : ParagraphBlock :=
  { children := [{ text, font := some "Courier New", size := some 18 }],
    spacingBefore := some 200,
    spacingAfter := some 200,
    shadingFill := some "f4f4f4" }

/-- One table cell as `createTable` builds it: header cells (first row or
`th` tag) get a bold run and shading. -/
def createTableCell (rowIndex : Nat) (cell : HtmlNode) : TableCellBlock :=
  let isHeader := rowIndex == 0 || tagLower cell == "th"
  { children := [{ children := [{ text := textContent cell, bold := isHeader }] }],
    shadingFill := if isHeader then some "f8f9fa" else none }

/-- `createTable` over the extracted rows-of-cells: rows in order, each
cell styled by `createTableCell` with its row index; fixed 100% width. -/
def createTable (rows : List (List HtmlNode)) : DocxBlock :=
  .table (rows.enum.map (fun p => p.2.map (createTableCell p.1))) 100 "PERCENTAGE"

/-- The DOM's `tableElement.rows` / `row.cells` collections for a flat
table: the `tr` element children, each with its `td`/`th` element
children (the DOM APIs themselves are external collaborators). -/
def tableRows (tableElement : HtmlNode) : List (List HtmlNode) :=
  ((childElements tableElement).filter (fun r => tagLower r == "tr")).map
    (fun r => (childElements r).filter (fun c => tagLower c == "td" || tagLower c == "th"))

/-- `createHorizontalRule`: an empty run with a bottom border. -/
def createHorizontalRule : ParagraphBlock :=
  { children := [{ text := "" }],
    spacingBefore := some 200,
    spacingAfter := some 200,
    borderBottom := some { color := "e9ecef", size := 6, style := "single" } }

/-- The blocks one top-level element contributes: the `switch` of
`processHtmlElements`, with the default case keeping only elements whose
trimmed flattened text is non-empty. -/
def blocksForElement (element : HtmlNode) : List DocxBlock :=
  let tag := tagLower element
  if tag = "h1" then [.para (createHeading (textContent element) .HEADING_1)]
  else if tag = "h2" then [.para (createHeading (textContent element) .HEADING_2)]
  else if tag = "h3" then [.para (createHeading (textContent element) .HEADING_3)]
  else if tag = "h4" then [.para (createHeading (textContent element) .HEADING_4)]
  else if tag = "h5" then [.para (createHeading (textContent element) .HEADING_5)]
  else if tag = "h6" then [.para (createHeading (textContent element) .HEADING_6)]
  else if tag = "p" then [.para (createParagraph element)]
  else if tag = "ul" ∨ tag = "ol" then (createList element).map .para
  else if tag = "blockquote" then [.para (createBlockquote (textContent element))]
  else if tag = "pre" then [.para (createCodeBlock (textContent element))]
  else if tag = "table" then [createTable (tableRows element)]
  else if tag = "hr" then [.para createHorizontalRule]
  else if strTrim (textContent element) ≠ "" then [.para (createParagraph element)]
  else []

/-- `processHtmlElements`: every top-level element's blocks, in document
order. -/
def processHtmlElements (elements : List HtmlNode) : List DocxBlock :=
  elements.flatMap blocksForElement

/-! ## Document assembler (`createDocxFromHtml`) -/

/-- The export options record the strategy reads. -/
structure ExportOptions where
  includeMetadata : Bool := false
  customFilename : Option String := none
deriving Repr, DecidableEq

/-- The title paragraph `createDocxFromHtml` always pushes first: bold,
centered, hard-coded size 32 half-points, TITLE heading level. -/
def titleBlock (title : String) : ParagraphBlock :=
  { children := [{ text := title, bold := true, size := some 32 }],
    heading := some HeadingLevel.TITLE,
    alignment := some AlignmentType.CENTER,
    spacingAfter := some 400 }

/-- The export-timestamp metadata paragraph (locale date and time strings
are supplied by the ambient clock, a collaborator). -/
def metadataTimestampBlock (dateStr timeStr : String) : ParagraphBlock :=
  { children := [{ text := "Exported: " ++ dateStr ++ " " ++ timeStr,
                   size := some 18, color := some "666666" }],
    alignment := some AlignmentType.CENTER,
    spacingAfter := some 400 }

/-- The fixed format-label metadata paragraph. -/
def metadataFormatBlock : ParagraphBlock :=
  { children := [{ text := "Format: Microsoft Word Document",
                   size := some 18, color := some "666666" }],
    alignment := some AlignmentType.CENTER,
    spacingAfter := some 800 }

/-- The attribution footer paragraph `createDocxFromHtml` always appends. -/
def footerBlock (dateStr : String) : ParagraphBlock :=
  { children := [{ text := "Generated by BOFU Article Editor on " ++ dateStr,
                   size := some 16, color := some "999999" }],
    alignment := some AlignmentType.CENTER,
    spacingBefore := some 800 }

/-- The ordered block sequence `createDocxFromHtml` assembles: title, then
the two metadata paragraphs when `includeMetadata` is set, then the body
blocks, then the footer. -/
def docxSections (bodyChildren : List HtmlNode) (title : String)
    (options : ExportOptions) (dateStr timeStr : String) : List DocxBlock :=
  [DocxBlock.para (titleBlock title)]
    ++ (if options.includeMetadata then
          [DocxBlock.para (metadataTimestampBlock dateStr timeStr),
           DocxBlock.para metadataFormatBlock]
        else [])
    ++ processHtmlElements bodyChildren
    ++ [DocxBlock.para (footerBlock dateStr)]

/-! ## Export orchestrator (`export`) -/

/-- A thrown JavaScript value as the catch block distinguishes them: an
`Error` instance carrying a message, or any other thrown value. -/
inductive JsError where
  | err (msg : String)
  | nonError
deriving Repr, DecidableEq

/-- The message the catch block extracts:
`error instanceof Error ? error.message : 'Unknown DOCX export error'`. -/
def jsErrorMessage : JsError → String
  | .err m => m
  | .nonError => "Unknown DOCX export error"

/-- A live tiptap editor handle (external collaborator): its `getHTML()`
either returns the serialized HTML or throws. -/
structure EditorHandle where
  getHTMLResult : Except JsError String
deriving Repr

/-- A structured (tiptap JSON) document (external collaborator): what the
throwaway editor materialized from it answers to `getHTML()` — the HTML,
or a throw. -/
structure JsonDoc where
  getHTMLResult : Except JsError String
deriving Repr

/-- The duck-typed object shape `export` probes: each probed field is
either present or absent (`none` models a missing/undefined field). -/
structure ContentObj where
  editor : Option EditorHandle := none
  html : Option String := none
  json : Option JsonDoc := none
  title : Option String := none
  articleId : Option String := none
deriving Repr

/-- A JavaScript value passed as `content`: a string, a non-string
primitive such as the number 42, or an object. -/
inductive JsValue where
  | str (s : String)
  | num (n : Int)
  | obj (o : ContentObj)
deriving Repr

/-- `content.title || articleTitle`: JavaScript `||` falls back on a
missing title and also on an empty (falsy) one. -/
def titleOrDefault (t : Option String) : String :=
  match t with
  | some s => if s == "" then "Untitled Article" else s
  | none => "Untitled Article"

/-- JavaScript truthiness of an optional string field: present and
non-empty. -/
def truthyStr : Option String → Bool
  | some s => s != ""
  | none => false

/-- Side effects the call performed: temporary-editor lifecycle counts and
save-trigger invocations. -/
structure Trace where
  tempEditorCreates : Nat := 0
  tempEditorDestroys : Nat := 0
  saveCalls : Nat := 0
deriving Repr, DecidableEq

/-- The `content?.json` branch: a throwaway editor is constructed, its HTML
is extracted — and `tempEditor.destroy()` runs only after a successful
extraction, exactly as the straight-line source does (no try/finally). -/
def normalizeJson (o : ContentObj) : Except JsError (String × String) × Trace :=
  match o.json with
  | some j =>
      (match j.getHTMLResult with
       | .ok h => (.ok (h, titleOrDefault o.title),
                   { tempEditorCreates := 1, tempEditorDestroys := 1 })
       | .error e => (.error e, { tempEditorCreates := 1, tempEditorDestroys := 0 }))
  | none => (.error (.err "Unsupported content format for DOCX export"), {})

/-- The content-shape ladder at the top of `export`: string, live editor,
truthy `html` field, `json` field, otherwise throw. -/
def normalizeContent : JsValue → Except JsError (String × String) × Trace
  | .str s => (.ok (s, "Untitled Article"), {})
  | .num _ => (.error (.err "Unsupported content format for DOCX export"), {})
  | .obj o =>
      match o.editor with
      | some ed =>
          (match ed.getHTMLResult with
           | .ok h => (.ok (h, titleOrDefault o.title), {})
           | .error e => (.error e, {}))
      | none =>
          if truthyStr o.html then (.ok (o.html.getD "", titleOrDefault o.title), {})
          else normalizeJson o

/-- Modelled from the spec: the base class `ExportStrategy.createMetadata`
(its source file is not among the provided files) builds the result's
metadata record from the format tag, an empty checksum placeholder, the
source-provided article identifier and the title. -/
structure ExportMetadata where
  format : String
  checksum : String
  articleId : Option String
  title : String
deriving Repr, DecidableEq

/-- Modelled from the spec: `createMetadata` packs its four arguments. -/
def createMetadata (format checksum : String) (articleId : Option String)
    (title : String) : ExportMetadata :=
  { format, checksum, articleId, title }

/-- The `ExportResult` record `export` returns. -/
structure ExportResult where
  success : Bool
  filename : Option String := none
  blob : Option Nat := none
  error : Option String := none
  metadata : Option ExportMetadata := none
deriving Repr, DecidableEq

/-- External collaborators of one export call: the HTML parser, the binary
serializer (a blob is an opaque id), the save trigger, the base-class
filename deriver, and the ambient clock's locale strings. The fallible
ones answer with `Except` so their throws are represented. -/
structure Collaborators where
  parseBody : String → List HtmlNode
  toBlob : List DocxBlock → Except JsError Nat
  saveTrigger : Nat → String → Except JsError Unit
  generateFilename : String → String → Option String → String
  dateStr : String
  timeStr : String

/-- `content.articleId` as the success path reads it (undefined on a
primitive). -/
def articleIdOf : JsValue → Option String
  | .obj o => o.articleId
  | _ => none

/-- The body of `export`s `try` block: normalize, convert, serialize, save,
build the success result; the first throw escapes with the side effects
performed so far. -/
def exportInner (content : JsValue) (options : ExportOptions) (co : Collaborators) :
    Except JsError ExportResult × Trace :=
  match normalizeContent content with
  | (.error e, t) => (.error e, t)
  | (.ok (htmlContent, articleTitle), t) =>
      match co.toBlob (docxSections (co.parseBody htmlContent) articleTitle options
          co.dateStr co.timeStr) with
      | .error e => (.error e, t)
      | .ok docxBlob =>
          let filename := co.generateFilename articleTitle "docx" options.customFilename
          match co.saveTrigger docxBlob filename with
          | .error e => (.error e, { t with saveCalls := t.saveCalls + 1 })
          | .ok _ =>
              (.ok { success := true,
                     filename := some filename,
                     blob := some docxBlob,
                     metadata := some (createMetadata "docx" ""
                       (articleIdOf content) articleTitle) },
               { t with saveCalls := t.saveCalls + 1 })

/-- `export`: the `try` body with its single catch-all, which converts any
thrown value into a `success := false` result carrying the extracted
message. -/
def exportDocx (content : JsValue) (options : ExportOptions) (co : Collaborators) :
    ExportResult × Trace :=
  match exportInner content options co with
  | (.ok r, t) => (r, t)
  | (.error e, t) => ({ success := false, error := some (jsErrorMessage e) }, t)

/-- The styled cell the emitted table holds at row `i`, column `j`. -/
def tableCellAt (b : DocxBlock) (i j : Nat) : Option TableCellBlock :=
  match b with
  | .para _ => none
  | .table rows _ _ =>
      match rows[i]? with
      | some r => r[j]?
      | none => none

/-- A structured-content input whose throwaway editor's `getHTML()` throws. -/
def throwingJsonContent : JsValue :=
  JsValue.obj { json := some { getHTMLResult := Except.error (JsError.err "getHTML failed") } }

/-- A structured-content input whose throwaway editor's `getHTML()` succeeds. -/
def okJsonContent : JsValue :=
  JsValue.obj { json := some { getHTMLResult := Except.ok "<p></p>" } }

/-! ## Helper lemmas -/

/-- Over a run of children that are all `li` elements, `createList`'s loop
starting at index `k` emits one item per child, the item at offset `i`
carrying marker `(k + i) + 1`. -/
theorem createListAux_ol_all_li (items : List HtmlNode) :
    ∀ k : Nat, (∀ x ∈ items, isElem x = true ∧ tagLower x = "li") →
      createListAux true k items =
        (items.enumFrom k).map
          (fun p => listItemBlock (toString (p.1 + 1) ++ ".") (textContent p.2)) := by
  induction items with
  | nil => intro k _; rfl
  | cons x xs ih =>
    intro k h
    have hx := h x (List.mem_cons_self x xs)
    have hxs := fun y hy => h y (List.mem_cons_of_mem x hy)
    simp only [createListAux, List.enumFrom, List.map, hx.2, ih (k + 1) hxs]
    rfl

/-- Every block the unordered branch of `createList`'s loop emits carries
the fixed bullet marker. -/
theorem createListAux_ul_bullet (ys : List HtmlNode) :
    ∀ (k : Nat) (b : ParagraphBlock), b ∈ createListAux false k ys →
      ∃ c, b = listItemBlock "•" c := by
  induction ys with
  | nil => intro k b hb; simp [createListAux] at hb
  | cons x xs ih =>
    intro k b hb
    simp only [createListAux] at hb
    rcases List.mem_append.mp hb with h1 | h2
    · by_cases hx : (tagLower x == "li") = true
      · rw [if_pos hx] at h1
        simp at h1
        exact ⟨textContent x, h1⟩
      · rw [if_neg hx] at h1
        simp at h1
    · exact ih (k + 1) b h2

/-- A result the `try` body returns without throwing always carries
`success := true` (the only `.ok` exit is the final success record). -/
theorem exportInner_ok_success (content : JsValue) (options : ExportOptions)
    (co : Collaborators) (r : ExportResult) (t : Trace)
    (h : exportInner content options co = (Except.ok r, t)) : r.success = true := by
  simp only [exportInner] at h
  split at h
  · exact absurd h (by simp)
  · split at h
    · exact absurd h (by simp)
    · split at h
      · exact absurd h (by simp)
      · simp only [Prod.mk.injEq, Except.ok.injEq] at h
        obtain ⟨h1, _⟩ := h
        subst h1
        rfl

/-! ## Claims -/

/-- C1: with structured (`json`) content whose HTML extraction throws, the
call still returns a failure result — but the temporary editor is created
once and destroyed zero times, not once, because `tempEditor.destroy()`
sits after `getHTML()` with no try/finally; on the success path the
destroy does run exactly once. -/
theorem C1_temp_editor_leak (options : ExportOptions) (co : Collaborators) :
    (exportDocx throwingJsonContent options co).1.success = false ∧
    (exportDocx throwingJsonContent options co).1.error = some "getHTML failed" ∧
    (exportDocx throwingJsonContent options co).2.tempEditorCreates = 1 ∧
    (exportDocx throwingJsonContent options co).2.tempEditorDestroys = 0 ∧
    (normalizeContent okJsonContent).2.tempEditorDestroys = 1 :=
  ⟨rfl, rfl, rfl, rfl, rfl⟩

/-- C2 counterexample: an `ol` whose element children are `li`, `div`, `li`
yields markers `1.` and `3.`, not `1.` and `2.` — the loop index counts
the interleaved non-`li` child, so markers are not `1.`…`N.` regardless of
interleaved non-`li` children. -/
theorem C2_counterexample :
    createList (HtmlNode.elem "ol"
        [HtmlNode.elem "li" [HtmlNode.text "a"],
         HtmlNode.elem "div" [HtmlNode.text "x"],
         HtmlNode.elem "li" [HtmlNode.text "b"]]) =
      [listItemBlock "1." "a", listItemBlock "3." "b"] ∧
    (createList (HtmlNode.elem "ol"
        [HtmlNode.elem "li" [HtmlNode.text "a"],
         HtmlNode.elem "div" [HtmlNode.text "x"],
         HtmlNode.elem "li" [HtmlNode.text "b"]])).map
        (fun p => p.children.map TextRun.text) ≠ [["1. a"], ["2. b"]] :=
  ⟨by decide, by decide⟩

/-- C2 (amended): when every element child of an `ol` is an `li`, the
emitted markers are exactly `1.`…`N.` in source order (each item's marker
is its position plus one); every block an `ul` emits carries the fixed
bullet glyph. -/
theorem C2_list_markers (items : List HtmlNode)
    (h : ∀ x ∈ items, isElem x = true ∧ tagLower x = "li") :
    createList (HtmlNode.elem "ol" items) =
      items.enum.map (fun p => listItemBlock (toString (p.1 + 1) ++ ".") (textContent p.2)) ∧
    ∀ (ys : List HtmlNode) (b : ParagraphBlock), b ∈ createList (HtmlNode.elem "ul" ys) →
      ∃ c, b = listItemBlock "•" c := by
  constructor
  · have hfil : (childElements (HtmlNode.elem "ol" items)) = items :=
      List.filter_eq_self.mpr fun a ha => (h a ha).1
    have hord : (tagLower (HtmlNode.elem "ol" items) == "ol") = true := rfl
    unfold createList
    rw [hfil, hord]
    exact createListAux_ol_all_li items 0 h
  · intro ys b hb
    have hord : (tagLower (HtmlNode.elem "ul" ys) == "ol") = false := rfl
    unfold createList at hb
    rw [hord] at hb
    exact createListAux_ul_bullet _ 0 b hb

/-- C2 witness: the amended statement at a concrete two-item ordered list. -/
theorem C2_witness :
    (∀ x ∈ [HtmlNode.elem "li" [HtmlNode.text "a"], HtmlNode.elem "li" [HtmlNode.text "b"]],
        isElem x = true ∧ tagLower x = "li") ∧
    createList (HtmlNode.elem "ol"
        [HtmlNode.elem "li" [HtmlNode.text "a"], HtmlNode.elem "li" [HtmlNode.text "b"]]) =
      ([HtmlNode.elem "li" [HtmlNode.text "a"], HtmlNode.elem "li" [HtmlNode.text "b"]].enum.map
        (fun p => listItemBlock (toString (p.1 + 1) ++ ".") (textContent p.2))) :=
  ⟨by decide, (C2_list_markers _ (by decide)).1⟩

/-- C3: exporting the number 42 returns a failure result with exactly the
message "Unsupported content format for DOCX export", carries no blob, and
never invokes the save trigger. -/
theorem C3_unsupported_number (options : ExportOptions) (co : Collaborators) :
    exportDocx (JsValue.num 42) options co =
      ({ success := false, error := some "Unsupported content format for DOCX export" }, {}) ∧
    (exportDocx (JsValue.num 42) options co).1.blob = none ∧
    (exportDocx (JsValue.num 42) options co).2.saveCalls = 0 :=
  ⟨rfl, rfl, rfl⟩

/-- C4: for every content, options and collaborator behaviour, the call
returns a plain result — either the try body's success result
(`success = true`), or, when the body throws, a failure result whose error
is the thrown error's message (the fixed fallback when the thrown value
carries none). -/
theorem C4_errors_become_failure (content : JsValue) (options : ExportOptions)
    (co : Collaborators) :
    (∀ m, jsErrorMessage (JsError.err m) = m) ∧
    jsErrorMessage JsError.nonError = "Unknown DOCX export error" ∧
    ((∃ r t, exportInner content options co = (Except.ok r, t) ∧
        exportDocx content options co = (r, t) ∧ r.success = true) ∨
     (∃ e t, exportInner content options co = (Except.error e, t) ∧
        exportDocx content options co =
          ({ success := false, error := some (jsErrorMessage e) }, t))) := by
  refine ⟨fun m => rfl, rfl, ?_⟩
  rcases h : exportInner content options co with ⟨res, t⟩
  cases res with
  | ok r =>
      exact .inl ⟨r, t, rfl, by simp [exportDocx, h], exportInner_ok_success _ _ _ _ _ h⟩
  | error e =>
      exact .inr ⟨e, t, rfl, by simp [exportDocx, h]⟩

/-- C5 counterexample: the assembled Title block's single run has font
size 32 — the same value as heading level 1's table entry — so the Title
block's font size is not strictly larger than every heading level's. -/
theorem C5_counterexample :
    (titleBlock "Untitled Article").children =
      [{ text := "Untitled Article", bold := true, size := some 32 }] ∧
    headingFontSize HeadingLevel.HEADING_1 = 32 ∧
    ¬ (32 : Nat) > 32 :=
  ⟨rfl, rfl, by decide⟩

/-- C5 (amended): every produced heading block's run carries the fixed
table's size for its level; the sizes strictly decrease from level 1 to 6
and the table's TITLE entry exceeds them all — but the assembled Title
block hard-codes size 32, equal to heading 1's size. -/
theorem C5_heading_sizes :
    (∀ (t : String) (l : HeadingLevel),
        (createHeading t l).children =
          [{ text := t, bold := true, size := some (headingFontSize l),
             color := some "2c3e50" }]) ∧
    headingFontSize HeadingLevel.HEADING_2 < headingFontSize HeadingLevel.HEADING_1 ∧
    headingFontSize HeadingLevel.HEADING_3 < headingFontSize HeadingLevel.HEADING_2 ∧
    headingFontSize HeadingLevel.HEADING_4 < headingFontSize HeadingLevel.HEADING_3 ∧
    headingFontSize HeadingLevel.HEADING_5 < headingFontSize HeadingLevel.HEADING_4 ∧
    headingFontSize HeadingLevel.HEADING_6 < headingFontSize HeadingLevel.HEADING_5 ∧
    headingFontSize HeadingLevel.HEADING_1 < headingFontSize HeadingLevel.TITLE ∧
    (∀ t : String, (titleBlock t).children = [{ text := t, bold := true, size := some 32 }]) :=
  ⟨fun t l => rfl, by decide, by decide, by decide, by decide, by decide, by decide,
   fun t => rfl⟩

/-- C6: a produced table cell is header-styled (shaded, all runs bold) iff
its row index is 0 or its tag is `th`; the cell the output holds at any
position is a function of the row index and that source cell alone, and
permuting a row's cells permutes the styled cells by the same permutation,
changing no individual cell's styling. -/
theorem C6_table_header_styling :
    (∀ (i : Nat) (cell : HtmlNode),
        ((createTableCell i cell).shadingFill = some "f8f9fa" ∧
          ∀ p ∈ (createTableCell i cell).children, ∀ r ∈ p.children, r.bold = true) ↔
        (i = 0 ∨ tagLower cell = "th")) ∧
    (∀ (rows : List (List HtmlNode)) (i j : Nat) (row : List HtmlNode) (cell : HtmlNode),
        rows[i]? = some row → row[j]? = some cell →
        tableCellAt (createTable rows) i j = some (createTableCell i cell)) ∧
    (∀ (i : Nat) (row row' : List HtmlNode), List.Perm row row' →
        List.Perm (row.map (createTableCell i)) (row'.map (createTableCell i))) := by
  refine ⟨fun i cell => ?_, fun rows i j row cell hi hj => ?_, fun i row row' hp => hp.map _⟩
  · have hb : ((i == 0 || tagLower cell == "th") = true) ↔ (i = 0 ∨ tagLower cell = "th") := by
      simp
    by_cases hc : (i == 0 || tagLower cell == "th") = true
    · simp [createTableCell, hc, hb.mp hc]
    · have hr : ¬(i = 0 ∨ tagLower cell = "th") := fun hh => hc (hb.mpr hh)
      simp only [Bool.not_eq_true] at hc
      simp [createTableCell, hc, hr]
  · simp [createTable, tableCellAt, List.getElem?_map, List.getElem?_enum, hi, hj]

/-- C7: without metadata the Title block is immediately followed by the
body blocks (then the footer); with metadata exactly the timestamp block
and then the format block sit between Title and body. -/
theorem C7_metadata_toggle (children : List HtmlNode) (title dateStr timeStr : String)
    (cf : Option String) :
    docxSections children title { includeMetadata := false, customFilename := cf } dateStr timeStr =
      DocxBlock.para (titleBlock title) ::
        (processHtmlElements children ++ [DocxBlock.para (footerBlock dateStr)]) ∧
    docxSections children title { includeMetadata := true, customFilename := cf } dateStr timeStr =
      DocxBlock.para (titleBlock title) ::
        DocxBlock.para (metadataTimestampBlock dateStr timeStr) ::
        DocxBlock.para metadataFormatBlock ::
        (processHtmlElements children ++ [DocxBlock.para (footerBlock dateStr)]) :=
  ⟨rfl, rfl⟩

/-- C8: an empty `<p></p>` yields one Paragraph block with exactly one run
whose text is the empty string; a paragraph block never has zero runs, and
whenever the inline formatter yields none, the single fallback run carries
the element's flattened text. -/
theorem C8_empty_paragraph_single_run :
    processHtmlElements [HtmlNode.elem "p" []] =
      [DocxBlock.para { children := [{ text := "" }], spacingAfter := some 200 }] ∧
    (∀ e : HtmlNode, 1 ≤ (createParagraph e).children.length) ∧
    (∀ e : HtmlNode, processInlineElements e = [] →
        (createParagraph e).children = [{ text := textContent e }]) := by
  refine ⟨by decide, fun e => ?_, fun e h => by simp [createParagraph, h]⟩
  cases hr : processInlineElements e with
  | nil => simp [createParagraph, hr]
  | cons a l => simp [createParagraph, hr]

/-- C9 counterexample: a `div` whose flattened text is a single space has
non-empty flattened text content yet produces no block — the dispatch
tests the trimmed text, not the text itself. -/
theorem C9_counterexample :
    textContent (HtmlNode.elem "div" [HtmlNode.text " "]) = " " ∧
    (" " : String) ≠ "" ∧
    blocksForElement (HtmlNode.elem "div" [HtmlNode.text " "]) = [] :=
  ⟨rfl, by decide, by decide⟩

/-- C9 (amended): an element with an unrecognized tag produces one
Paragraph block when its flattened text content is non-empty after
trimming, and no block when the trimmed text is empty. -/
theorem C9_default_dispatch (e : HtmlNode)
    (h : tagLower e ∉ (["h1", "h2", "h3", "h4", "h5", "h6", "p", "ul", "ol",
        "blockquote", "pre", "table", "hr"] : List String)) :
    blocksForElement e =
      if strTrim (textContent e) ≠ "" then [DocxBlock.para (createParagraph e)] else [] := by
  simp only [List.mem_cons, List.not_mem_nil, or_false, not_or] at h
  obtain ⟨h1, h2, h3, h4, h5, h6, h7, h8, h9, h10, h11, h12, h13⟩ := h
  simp only [blocksForElement]
  rw [if_neg h1, if_neg h2, if_neg h3, if_neg h4, if_neg h5, if_neg h6, if_neg h7,
    if_neg (not_or_intro h8 h9), if_neg h10, if_neg h11, if_neg h12, if_neg h13]

/-- C9 witness: the amended dispatch at a concrete `div` with text. -/
theorem C9_witness :
    (tagLower (HtmlNode.elem "div" [HtmlNode.text "x"]) ∉ (["h1", "h2", "h3", "h4", "h5", "h6",
        "p", "ul", "ol", "blockquote", "pre", "table", "hr"] : List String)) ∧
    blocksForElement (HtmlNode.elem "div" [HtmlNode.text "x"]) =
      (if strTrim (textContent (HtmlNode.elem "div" [HtmlNode.text "x"])) ≠ "" then
        [DocxBlock.para (createParagraph (HtmlNode.elem "div" [HtmlNode.text "x"]))]
      else []) :=
  ⟨by decide, C9_default_dispatch _ (by decide)⟩

/-- C10: an object whose `html` field is present but empty (no editor, no
json) is not taken by the html variant — the field is tested by
truthiness — and the call returns the unsupported-format failure. -/
theorem C10_empty_html_field (t a : Option String) (options : ExportOptions)
    (co : Collaborators) :
    exportDocx (JsValue.obj { html := some "", title := t, articleId := a }) options co =
      ({ success := false, error := some "Unsupported content format for DOCX export" }, {}) ∧
    truthyStr (some "") = false :=
  ⟨rfl, rfl⟩
